import Mathlib

/-!
Shallow embedding of the Supra AutoFi agent's Strategy Lifecycle & Monitoring
Engine. The definitions below are translated from `src/super-agent.ts`
(the agent class the CLI instantiates) together with the three-tier health
evaluation `analyzeStrategy` from `src/index.ts`. External collaborators
(the OpenAI intent router and the Supra blockchain client) are modelled as
explicit parameters: the outcome of `deployRealAutomation` is passed in as an
`Except` value, the balance query as an `oracle` function, and the
`Math.random()`-based synthetic balance as a `fallbackBal` function.
Wall-clock reads (`Date.now()`, `new Date()`) are passed in as `now : Nat`.
-/

namespace AutoFi

/-! ### Address validation (`isValidAddress`, super-agent.ts line 495)

The source tests the regular expression `^0x[a-fA-F0-9]{64}$`. We translate
the regex as a direct matcher: the character class, and a counted repetition
that must consume the whole remainder of the string. -/

/-- The regex character class `[a-fA-F0-9]`. -/
def isHexDigitChar (c : Char) : Bool :=
  ('a' ≤ c && c ≤ 'f') || ('A' ≤ c && c ≤ 'F') || ('0' ≤ c && c ≤ '9')

/-- `matchesHexN n cs` holds when `cs` consists of exactly `n` characters of
the class `[a-fA-F0-9]` — the regex fragment `[a-fA-F0-9]{n}$`. -/
def matchesHexN : Nat → List Char → Bool
  | 0, [] => true
  | 0, _ :: _ => false
  | _ + 1, [] => false
  | n + 1, c :: rest => isHexDigitChar c && matchesHexN n rest

/-- `isValidAddress` from super-agent.ts: the string must match
`^0x[a-fA-F0-9]{64}$`. -/
def isValidAddress (address : String) : Bool :=
  match address.data with
  | '0' :: 'x' :: rest => matchesHexN 64 rest
  | _ => false

/-! ### Strategy id generation (`topup_${Date.now()}`, super-agent.ts line 285)

JavaScript's template literal stringifies the integer `Date.now()` as its
usual base-10 numeral. We model that stringification with a fuel-based
structural recursion (fuel `n` is enough for any `n < 10 ^ n`). -/

/-- One decimal digit character; models the digit production of JavaScript's
number-to-string conversion (only arguments below 10 occur). -/
def decDigitChar (d : Nat) : Char :=
  match d with
  | 0 => '0' | 1 => '1' | 2 => '2' | 3 => '3' | 4 => '4'
  | 5 => '5' | 6 => '6' | 7 => '7' | 8 => '8' | 9 => '9'
  | _ => '*'

/-- Numeric value of a decimal digit character (inverse of `decDigitChar`). -/
def decDigitVal (c : Char) : Nat := c.toNat - 48

/-- Big-endian decimal digits of `n`, `[]` for `n = 0`; the first argument is
fuel bounding the recursion depth. -/
def natDigitsAux : Nat → Nat → List Char
  | 0, _ => []
  | fuel + 1, n =>
    if n = 0 then [] else natDigitsAux fuel (n / 10) ++ [decDigitChar (n % 10)]

/-- The base-10 numeral of `n`, as produced by JavaScript's template-literal
stringification of the integer `Date.now()`. -/
def natToDecString (n : Nat) : String :=
  if n = 0 then "0" else String.mk (natDigitsAux n n)

/-- Value of a big-endian decimal digit string (used to prove the numeral map
injective, hence that distinct timestamps give distinct strategy ids). -/
def decFromDigits (l : List Char) : Nat :=
  l.foldl (fun a c => a * 10 + decDigitVal c) 0

/-- The strategy id `topup_${Date.now()}` computed at the top of
`createAutoTopupStrategy`. -/
def strategyIdFor (now : Nat) : String :=
  "topup_" ++ natToDecString now

/-! ### Data model (`AutomationStrategy`, super-agent.ts lines 18-38)

`successRate` is the TypeScript `number` `1.0`; it is only ever written at
creation, so we model it as a rational. The optional `lastExecution` field is
never written anywhere in the source and is omitted. `taskId` is optional in
the TS interface but is set on every record the code builds, so it is
modelled as a plain `Nat`. -/

structure AutomationStrategy where
  id : String
  /-- always the literal `'auto_topup'` -/
  stratType : String
  name : String
  description : String
  /-- `parameters.target` -/
  target : String
  taskId : Nat
  isActive : Bool
  createdAt : Nat
  lastChecked : Option Nat
  executionCount : Nat
  successRate : ℚ
  totalTransferred : Nat
deriving DecidableEq, Repr

/-- The slice of the agent's mutable state the claims are about: the
`strategies` map (a JavaScript `Map`, modelled as an insertion-ordered
association list without duplicate keys) and the
`performanceMetrics.totalStrategiesCreated` counter. The remaining metrics
fields (`totalConversations`, `totalExecutions`, `startTime`) are only
touched by the LLM chat loop and are omitted. -/
structure AgentState where
  strategies : List (String × AutomationStrategy)
  totalStrategiesCreated : Nat
deriving DecidableEq, Repr

/-- The `EventEmitter` notifications relevant to the claims. Each carries the
payload the source attaches with `this.emit(...)`. -/
inductive Event where
  | strategyCreated (strategy : AutomationStrategy)
  | strategyCreationFailed (errorMsg : String)
  | lowBalanceAlert (strategy : AutomationStrategy) (balance : Nat)
  | strategyError (strategyId : String) (errorMsg : String)
deriving DecidableEq, Repr

/-! ### The strategies `Map` -/

/-- `Map.get`: value of the first (and, absent duplicates, only) entry with
the given key. -/
def lookupS (k : String) : List (String × AutomationStrategy) → Option AutomationStrategy
  | [] => none
  | (k', v) :: rest => if k' = k then some v else lookupS k rest

/-- `Map.set`: replace the entry with key `k` in place (preserving insertion
order), or append a fresh entry when the key is absent. -/
def mapSet : List (String × AutomationStrategy) → String → AutomationStrategy →
    List (String × AutomationStrategy)
  | [], k, v => [(k, v)]
  | (k', v') :: rest, k, v =>
    if k' = k then (k, v) :: rest else (k', v') :: mapSet rest k v

/-! ### Strategy creation (`createAutoTopupStrategy`, super-agent.ts lines 280-373)

`deployRealAutomation` is pure orchestration of the blockchain client
(sequence number, fee estimation with a hardcoded fallback, balance check,
transaction build/submit); its outcome enters the model as
`deploy : Except String DeployResult`, where on success `taskId` is the value
the source derives from the last 8 hex characters of the transaction hash.
`performPreDeploymentChecks` wraps its single balance query in its own
`try/catch` with only a console warning in the handler, so it has no effect
on the modelled state and cannot throw; it is therefore a no-op here.
The `Math.random()`-derived simulation task id and transaction hash enter as
`simTaskId` / `simTxHash`. Informational result fields that the claims never
touch (`estimatedMonthlyCost` — the constant `2.5`, `troubleshooting`,
`suggestions`) are omitted from the result structure. -/

structure DeployResult where
  txHash : String
  /-- `parseInt(txHash.slice(-8), 16)` computed inside `deployRealAutomation` -/
  taskId : Nat
deriving DecidableEq, Repr

structure CreateResult where
  success : Bool
  strategyId : Option String
  txHash : Option String
  taskId : Option Nat
  message : String
  strategy : Option AutomationStrategy
  mode : Option String
  note : Option String
  errorMsg : Option String
deriving DecidableEq, Repr

structure CreateOutcome where
  result : CreateResult
  state : AgentState
  events : List Event
deriving DecidableEq, Repr

def createAutoTopupStrategy (st : AgentState) (strategyName targetAddress : String)
    (now : Nat) (deploy : Except String DeployResult)
    (simTaskId : Nat) (simTxHash : String) : CreateOutcome :=
  let strategyId := strategyIdFor now
  if isValidAddress targetAddress = false then
    -- the thrown `Error` is caught by the outer `catch`, which emits
    -- `strategyCreationFailed` and returns a `success: false` result
    let msg := "Invalid address format: " ++ targetAddress ++
      ". Must be 0x followed by 64 hex characters."
    { result := { success := false, strategyId := none, txHash := none, taskId := none,
                  message := "❌ Failed to create strategy: " ++ msg,
                  strategy := none, mode := none, note := none, errorMsg := some msg }
      state := st
      events := [Event.strategyCreationFailed msg] }
  else
    match deploy with
    | Except.ok r =>
      let strategy : AutomationStrategy :=
        { id := strategyId, stratType := "auto_topup", name := strategyName,
          description := "Smart auto top-up for " ++ targetAddress ++
            " - maintains 600+ SUPRA balance",
          target := targetAddress, taskId := r.taskId, isActive := true,
          createdAt := now, lastChecked := none,
          executionCount := 0, successRate := 1, totalTransferred := 0 }
      { result := { success := true, strategyId := some strategyId,
                    txHash := some r.txHash, taskId := some r.taskId,
                    message := "✅ Strategy \x22" ++ strategyName ++ "\x22 deployed successfully!",
                    strategy := some strategy, mode := some "REAL_DEPLOYMENT",
                    note := none, errorMsg := none }
        state := { st with strategies := mapSet st.strategies strategyId strategy,
                           totalStrategiesCreated := st.totalStrategiesCreated + 1 }
        events := [Event.strategyCreated strategy] }
    | Except.error deployErrorMsg =>
      -- SIMULATION fallback: note that this branch neither increments
      -- `totalStrategiesCreated` nor emits `strategyCreated`
      let strategy : AutomationStrategy :=
        { id := strategyId, stratType := "auto_topup", name := strategyName,
          description := "Simulated auto top-up for " ++ targetAddress,
          target := targetAddress, taskId := simTaskId, isActive := true,
          createdAt := now, lastChecked := none,
          executionCount := 0, successRate := 1, totalTransferred := 0 }
      { result := { success := true, strategyId := some strategyId,
                    txHash := some simTxHash, taskId := some simTaskId,
                    message := "🔄 Strategy created in simulation mode",
                    strategy := some strategy, mode := some "SIMULATION",
                    note := some ("Real deployment failed: " ++ deployErrorMsg),
                    errorMsg := none }
        state := { st with strategies := mapSet st.strategies strategyId strategy }
        events := [] }

/-! ### Cancellation (`cancelStrategy`, super-agent.ts lines 602-624) -/

structure CancelResult where
  success : Bool
  message : String
  strategyId : Option String
deriving DecidableEq, Repr

def cancelStrategy (st : AgentState) (strategyId : String) : CancelResult × AgentState :=
  match lookupS strategyId st.strategies with
  | none => ({ success := false, message := "Strategy not found", strategyId := none }, st)
  | some strategy =>
    let strategy' := { strategy with isActive := false }
    ({ success := true,
       message := "✅ Successfully cancelled: " ++ strategy.name,
       strategyId := some strategyId },
     { st with strategies := mapSet st.strategies strategyId strategy' })

/-! ### Balance oracle (`getAccountBalance`, super-agent.ts lines 484-494)

The underlying `getAccountCoinBalance` RPC enters as `oracle`; the
`catch` branch returns `BigInt(Math.floor(Math.random() * 100000000))`,
modelled by `fallbackBal` — theorems that need it state the source-guaranteed
bound `fallbackBal a < 100000000` as a hypothesis. -/

def getAccountBalance (oracle : String → Except String Nat)
    (fallbackBal : String → Nat) (address : String) : Nat :=
  match oracle address with
  | Except.ok balance => balance
  | Except.error _ => fallbackBal address

/-! ### Periodic monitoring (`runPeriodicCheck`, super-agent.ts lines 717-735)

The loop body is a `try/catch`; `tryCheckStrategy` is the `try` block. Every
step of that block is total — in particular the balance fetch is
`getAccountBalance`, which swallows its own failures — so the `catch` branch
(which would emit `strategyError`) is present below but unreachable.
The source iterates `this.strategies.entries()` live, but each iteration
writes only its own key, so folding over the entry list read at the start is
equivalent for duplicate-free stores (which is all a JS `Map` can be). -/

def tryCheckStrategy (oracle : String → Except String Nat)
    (fallbackBal : String → Nat) (now : Nat)
    (strategy : AutomationStrategy) : Except String (AutomationStrategy × List Event) :=
  let balance := getAccountBalance oracle fallbackBal strategy.target
  let alerts := if balance < 600000000 * 2
    then [Event.lowBalanceAlert strategy balance] else []
  Except.ok ({ strategy with lastChecked := some now }, alerts)

def runPeriodicCheckGo (oracle : String → Except String Nat)
    (fallbackBal : String → Nat) (now : Nat) :
    List (String × AutomationStrategy) → AgentState → List Event →
    AgentState × List Event
  | [], st, events => (st, events)
  | (id, strategy) :: rest, st, events =>
    if strategy.isActive = false then
      -- `if (!strategy.isActive) continue`
      runPeriodicCheckGo oracle fallbackBal now rest st events
    else
      match tryCheckStrategy oracle fallbackBal now strategy with
      | Except.ok (strategy', alerts) =>
        runPeriodicCheckGo oracle fallbackBal now rest
          { st with strategies := mapSet st.strategies id strategy' }
          (events ++ alerts)
      | Except.error e =>
        runPeriodicCheckGo oracle fallbackBal now rest st
          (events ++ [Event.strategyError id e])

def runPeriodicCheck (oracle : String → Except String Nat)
    (fallbackBal : String → Nat) (now : Nat) (st : AgentState) :
    AgentState × List Event :=
  runPeriodicCheckGo oracle fallbackBal now st.strategies st []

/-! ### Performance monitor tick (`updateStrategyPerformance`,
super-agent.ts lines 594-601): refreshes `lastChecked` on active records. -/

def updateStrategyPerformanceGo (now : Nat) :
    List (String × AutomationStrategy) → AgentState → AgentState
  | [], st => st
  | (id, strategy) :: rest, st =>
    if strategy.isActive = true then
      updateStrategyPerformanceGo now rest
        { st with strategies := mapSet st.strategies id { strategy with lastChecked := some now } }
    else
      updateStrategyPerformanceGo now rest st

def updateStrategyPerformance (now : Nat) (st : AgentState) : AgentState :=
  updateStrategyPerformanceGo now st.strategies st

/-! ### Read-only queries -/

/-- `listActiveStrategies` (super-agent.ts lines 626-645): filters the active
records (the source then projects a summary object from each; the projection
drops fields and is omitted) and reports their count. No store write. -/
def listActiveStrategies (st : AgentState) : List AutomationStrategy × Nat :=
  let active := (st.strategies.map Prod.snd).filter (fun s => s.isActive)
  (active, active.length)

/-- `calculateHealthStatus` (super-agent.ts lines 694-704). The
floating-point `balanceRatio` field is omitted. -/
structure HealthStatus where
  status : String
  willTrigger : Bool
  recommendation : String
deriving DecidableEq, Repr

def calculateHealthStatus (strategy : AutomationStrategy) (balance : Nat) : HealthStatus :=
  let threshold := 600000000
  { status := if threshold ≤ balance then "healthy" else "needs_topup",
    willTrigger := decide (balance < threshold),
    recommendation := if balance < threshold
      then "Top-up will trigger automatically" else "Balance is healthy" }

structure StatusEntry where
  strategy : AutomationStrategy
  currentBalance : Nat
  /-- the `new Date()` stamped into the result copy; the store is not written -/
  lastChecked : Nat
  healthStatus : HealthStatus
deriving DecidableEq, Repr

inductive StatusResult where
  | notFound
  | single (entry : StatusEntry)
  | all (entries : List StatusEntry)
deriving DecidableEq, Repr

/-- `checkStrategyStatus` (super-agent.ts lines 647-692): a read-only query;
the `lastChecked: new Date()` is placed in the returned copies only, never
written back to the store. -/
def checkStrategyStatus (oracle : String → Except String Nat)
    (fallbackBal : String → Nat) (now : Nat) (st : AgentState) :
    Option String → StatusResult
  | some strategyId =>
    match lookupS strategyId st.strategies with
    | none => StatusResult.notFound
    | some strategy =>
      let balance := getAccountBalance oracle fallbackBal strategy.target
      StatusResult.single
        { strategy := strategy, currentBalance := balance, lastChecked := now,
          healthStatus := calculateHealthStatus strategy balance }
  | none =>
    StatusResult.all <|
      (st.strategies.filter (fun p => p.2.isActive)).map fun p =>
        let balance := getAccountBalance oracle fallbackBal p.2.target
        { strategy := p.2, currentBalance := balance, lastChecked := now,
          healthStatus := calculateHealthStatus p.2 balance }

/-! ### Three-tier health evaluation (`analyzeStrategy`, index.ts lines 724-754)

The spec's HealthEvaluator. The floating-point `metrics` pair
(`distanceFromThreshold`, `percentageOfThreshold`) is omitted. The source
first builds the object with `status: 'unknown', urgency: 'low'` and then
overwrites both fields on every branch of the if/else chain, so only the
final values appear here. -/

structure StrategyAnalysis where
  status : String
  urgency : String
  recommendation : String
  willTrigger : Bool
deriving DecidableEq, Repr

def analyzeStrategy (strategy : AutomationStrategy) (currentBalance : Nat) :
    StrategyAnalysis :=
  let threshold := 600000000
  if currentBalance < threshold then
    { status := "below_threshold", urgency := "high",
      recommendation := "Balance is below 600 SUPRA! Top-up will trigger with 50 SUPRA.",
      willTrigger := decide (currentBalance < threshold) }
  else if currentBalance < threshold * 2 then
    { status := "approaching_threshold", urgency := "medium",
      recommendation := "Balance getting close to 600 SUPRA threshold.",
      willTrigger := decide (currentBalance < threshold) }
  else
    { status := "healthy", urgency := "low",
      recommendation := "Balance is well above threshold. Strategy working well.",
      willTrigger := decide (currentBalance < threshold) }

/-! ### Operations on the store, as a single step type (for the lifecycle
invariants). `listActive` and `checkStatus` perform no store write in the
source, so they leave the state unchanged. -/

inductive AgentOp where
  | create (strategyName targetAddress : String) (now : Nat)
      (deploy : Except String DeployResult) (simTaskId : Nat) (simTxHash : String)
  | cancel (strategyId : String)
  | listActive
  | checkStatus (oracle : String → Except String Nat)
      (fallbackBal : String → Nat) (now : Nat) (strategyId : Option String)
  | periodicCheck (oracle : String → Except String Nat)
      (fallbackBal : String → Nat) (now : Nat)
  | perfUpdate (now : Nat)

def applyOp (st : AgentState) : AgentOp → AgentState
  | AgentOp.create n a now d t h => (createAutoTopupStrategy st n a now d t h).state
  | AgentOp.cancel id => (cancelStrategy st id).2
  | AgentOp.listActive => st
  | AgentOp.checkStatus _ _ _ _ => st
  | AgentOp.periodicCheck o f now => (runPeriodicCheck o f now st).1
  | AgentOp.perfUpdate now => updateStrategyPerformance now st

/-- The id a step would assign to a fresh record (`some` only for creates). -/
def opGeneratedId : AgentOp → Option String
  | AgentOp.create _ _ now _ _ _ => some (strategyIdFor now)
  | _ => none

/-! ### Concrete sample values used by witnesses and counterexamples -/

/-- A syntactically valid address: `0x` followed by 64 `1`s. -/
def sampleAddr : String := String.mk ('0' :: 'x' :: List.replicate 64 '1')

def emptyState : AgentState := { strategies := [], totalStrategiesCreated := 0 }

/-- A record as `createAutoTopupStrategy` builds it in simulation mode,
already cancelled. -/
def sampleInactive : AutomationStrategy :=
  { id := "topup_1", stratType := "auto_topup", name := "Trading Wallet",
    description := "Simulated auto top-up for " ++ sampleAddr,
    target := sampleAddr, taskId := 7, isActive := false, createdAt := 1,
    lastChecked := none, executionCount := 0, successRate := 1,
    totalTransferred := 0 }

/-- The same record while still active. -/
def sampleActive : AutomationStrategy := { sampleInactive with isActive := true }

/-- An always-failing balance oracle. -/
def failingOracle : String → Except String Nat := fun _ => Except.error "rpc down"

/-- A store holding only the cancelled sample record. -/
def inactiveState : AgentState :=
  { strategies := [("topup_1", sampleInactive)], totalStrategiesCreated := 1 }

/-- Characterization helper for the monitor pass: the `lowBalanceAlert` (if
any) that one entry of the store contributes to a pass's notifications. -/
def monitorAlertOf (oracle : String → Except String Nat)
    (fallbackBal : String → Nat) (p : String × AutomationStrategy) : Option Event :=
  if p.2.isActive = true then
    if getAccountBalance oracle fallbackBal p.2.target < 600000000 * 2 then
      some (Event.lowBalanceAlert p.2 (getAccountBalance oracle fallbackBal p.2.target))
    else none
  else none

/-- Three records for exercising the monitor pass: two active, one cancelled. -/
def monA : AutomationStrategy :=
  { id := "topup_a", stratType := "auto_topup", name := "A", description := "d",
    target := "target_a", taskId := 1, isActive := true, createdAt := 0,
    lastChecked := none, executionCount := 0, successRate := 1,
    totalTransferred := 0 }

def monB : AutomationStrategy :=
  { monA with id := "topup_b", name := "B", target := "target_b" }

def monC : AutomationStrategy :=
  { monA with id := "topup_c", name := "C", target := "target_c", isActive := false }

def monitorState : AgentState :=
  { strategies := [("topup_a", monA), ("topup_b", monB), ("topup_c", monC)],
    totalStrategiesCreated := 3 }

/-- An oracle that fails for the second strategy's target only and reports a
comfortable balance for everything else. -/
def monitorDemoOracle : String → Except String Nat := fun a =>
  if a = "target_b" then Except.error "rpc down" else Except.ok 2000000000

/-- A concrete value for the `Math.floor(Math.random() * 100000000)`
fallback balance. -/
def monitorDemoFallback : String → Nat := fun _ => 42

/-! ## Lemmas about the strategies map -/

theorem lookupS_mapSet_self (m : List (String × AutomationStrategy)) (k : String)
    (v : AutomationStrategy) : lookupS k (mapSet m k v) = some v := by
  induction m with
  | nil => simp [mapSet, lookupS]
  | cons p rest ih =>
    obtain ⟨k', v'⟩ := p
    by_cases h : k' = k
    · simp [mapSet, h, lookupS]
    · simp [mapSet, h, lookupS, ih]

theorem lookupS_mapSet_ne (m : List (String × AutomationStrategy)) (k k' : String)
    (v : AutomationStrategy) (h : k ≠ k') :
    lookupS k' (mapSet m k v) = lookupS k' m := by
  induction m with
  | nil => simp [mapSet, lookupS, h]
  | cons p rest ih =>
    obtain ⟨k₀, v₀⟩ := p
    by_cases h₀ : k₀ = k
    · subst h₀
      simp [mapSet, lookupS, h]
    · simp [mapSet, h₀, lookupS, ih]

theorem mapSet_length_of_lookup_none (m : List (String × AutomationStrategy))
    (k : String) (v : AutomationStrategy) (h : lookupS k m = none) :
    (mapSet m k v).length = m.length + 1 := by
  induction m with
  | nil => simp [mapSet]
  | cons p rest ih =>
    obtain ⟨k₀, v₀⟩ := p
    by_cases h₀ : k₀ = k
    · simp [lookupS, h₀] at h
    · simp only [lookupS, h₀, if_false] at h
      simp [mapSet, h₀, ih h]

theorem mapSet_length_of_lookup_some (m : List (String × AutomationStrategy))
    (k : String) (v w : AutomationStrategy) (h : lookupS k m = some w) :
    (mapSet m k v).length = m.length := by
  induction m with
  | nil => simp [lookupS] at h
  | cons p rest ih =>
    obtain ⟨k₀, v₀⟩ := p
    by_cases h₀ : k₀ = k
    · simp [mapSet, h₀]
    · simp only [lookupS, h₀, if_false] at h
      simp [mapSet, h₀, ih h]

theorem mapSet_lookup_self_eq (m : List (String × AutomationStrategy))
    (k : String) (v : AutomationStrategy) (h : lookupS k m = some v) :
    mapSet m k v = m := by
  induction m with
  | nil => simp [lookupS] at h
  | cons p rest ih =>
    obtain ⟨k₀, v₀⟩ := p
    by_cases h₀ : k₀ = k
    · subst h₀
      have hv : v₀ = v := by simpa [lookupS] using h
      subst hv
      simp [mapSet]
    · simp only [lookupS, h₀, if_false] at h
      simp [mapSet, h₀, ih h]

/-- Setting `isActive := false` on a record that already has it is the
identity. -/
theorem setInactive_eq_self (s : AutomationStrategy) (h : s.isActive = false) :
    { s with isActive := false } = s := by
  cases s
  simp_all

/-! ## Address validation: characterization of the regex matcher -/

theorem matchesHexN_iff (n : Nat) : ∀ l : List Char,
    matchesHexN n l = true ↔ l.length = n ∧ ∀ c ∈ l, isHexDigitChar c = true := by
  induction n with
  | zero =>
    intro l
    cases l with
    | nil => simp [matchesHexN]
    | cons c rest => simp [matchesHexN]
  | succ n ih =>
    intro l
    cases l with
    | nil => simp [matchesHexN]
    | cons c rest =>
      simp only [matchesHexN, Bool.and_eq_true, ih rest, List.length_cons,
        List.forall_mem_cons, Nat.succ.injEq]
      tauto

/-- Claim C9: `isValidAddress s` is true iff `s` is the two-character
prefix `0x` followed by exactly 64 hexadecimal characters (digits or letters
`a`-`f` in either case); `0x` followed by 64 zeros is accepted, while
`0x123` and a 64-hex-character string without the `0x` prefix are
rejected. -/
theorem isValidAddress_spec :
    (∀ s : String, isValidAddress s = true ↔
      ∃ rest : List Char, s.data = '0' :: 'x' :: rest ∧ rest.length = 64 ∧
        ∀ c ∈ rest, isHexDigitChar c = true) ∧
    isValidAddress (String.mk ('0' :: 'x' :: List.replicate 64 '0')) = true ∧
    isValidAddress "0x123" = false ∧
    isValidAddress (String.mk (List.replicate 64 '0')) = false := by
  refine ⟨fun s => ?_, by decide, by decide, by decide⟩
  constructor
  · intro h
    unfold isValidAddress at h
    split at h
    · next rest heq =>
      exact ⟨rest, heq, ((matchesHexN_iff 64 rest).1 h).1, ((matchesHexN_iff 64 rest).1 h).2⟩
    · exact absurd h (by simp)
  · rintro ⟨rest, hdata, hlen, hhex⟩
    unfold isValidAddress
    rw [hdata]
    exact (matchesHexN_iff 64 rest).2 ⟨hlen, hhex⟩

/-! ## The three-tier health evaluation -/

/-- Claim C2: for every record and balance `B`, the health evaluation
(`analyzeStrategy`) classifies three tiers — `below_threshold`/`high` iff
`B < 600_000_000`, `approaching_threshold`/`medium` iff
`600_000_000 ≤ B < 1_200_000_000` (so `B` exactly at the threshold is
`approaching_threshold`, not `below_threshold`, the comparison being strict),
`healthy`/`low` otherwise — and `willTrigger` is true iff
`B < 600_000_000`. -/
theorem analyzeStrategy_three_tier :
    ∀ (s : AutomationStrategy) (B : Nat),
    ((analyzeStrategy s B).status = "below_threshold" ∧
        (analyzeStrategy s B).urgency = "high" ↔ B < 600000000) ∧
    ((analyzeStrategy s B).status = "approaching_threshold" ∧
        (analyzeStrategy s B).urgency = "medium" ↔
      600000000 ≤ B ∧ B < 1200000000) ∧
    ((analyzeStrategy s B).status = "healthy" ∧
        (analyzeStrategy s B).urgency = "low" ↔ 1200000000 ≤ B) ∧
    ((analyzeStrategy s B).willTrigger = true ↔ B < 600000000) ∧
    (analyzeStrategy s 600000000).status = "approaching_threshold" := by
  intro s B
  refine ⟨?_, ?_, ?_, ?_, ?_⟩ <;>
    simp only [analyzeStrategy] <;>
    split_ifs with h₁ h₂ <;>
    simp_all <;> omega

/-- By contrast, the super-agent's own `calculateHealthStatus` is a
two-tier summary (`healthy` vs `needs_topup`, no urgency field), agreeing
with the three-tier evaluation on `willTrigger`. -/
theorem calculateHealthStatus_two_tier :
    ∀ (s : AutomationStrategy) (B : Nat),
    ((calculateHealthStatus s B).status = "healthy" ↔ 600000000 ≤ B) ∧
    ((calculateHealthStatus s B).status = "needs_topup" ↔ B < 600000000) ∧
    ((calculateHealthStatus s B).willTrigger = true ↔ B < 600000000) := by
  intro s B
  refine ⟨?_, ?_, ?_⟩ <;> simp only [calculateHealthStatus]
  · split_ifs with h <;> simp_all
  · split_ifs with h <;> simp_all <;> omega
  · simp

/-! ## Cancellation error handling -/

/-- Claim C7: cancelling a strategy id that is not in the store returns a
structured failure result with message `Strategy not found`, raises no
exception (the function is total), and leaves the store — size and every
record — exactly unchanged. -/
theorem cancel_unknown_id (st : AgentState) (strategyId : String)
    (h : lookupS strategyId st.strategies = none) :
    cancelStrategy st strategyId =
      ({ success := false, message := "Strategy not found", strategyId := none }, st) := by
  unfold cancelStrategy
  rw [h]

theorem cancel_unknown_id_witness :
    lookupS "missing" emptyState.strategies = none ∧
    cancelStrategy emptyState "missing" =
      ({ success := false, message := "Strategy not found", strategyId := none },
        emptyState) :=
  ⟨rfl, cancel_unknown_id emptyState "missing" rfl⟩

/-- Claim C10: cancelling a strategy whose record is still in the store but
already has `isActive = false` again reports success with the
"Successfully cancelled" message (neither a not-found nor an
already-inactive report), and the state is unchanged: `isActive` stays
false and every field of every record is the same. -/
theorem cancel_already_inactive (st : AgentState) (strategyId : String)
    (s : AutomationStrategy) (hs : lookupS strategyId st.strategies = some s)
    (hin : s.isActive = false) :
    (cancelStrategy st strategyId).1.success = true ∧
    (cancelStrategy st strategyId).1.message = "✅ Successfully cancelled: " ++ s.name ∧
    (cancelStrategy st strategyId).2 = st := by
  unfold cancelStrategy
  rw [hs]
  refine ⟨rfl, rfl, ?_⟩
  simp only
  rw [setInactive_eq_self s hin, mapSet_lookup_self_eq _ _ _ hs]

theorem cancel_already_inactive_witness :
    lookupS "topup_1" inactiveState.strategies = some sampleInactive ∧
    sampleInactive.isActive = false ∧
    (cancelStrategy inactiveState "topup_1").1.success = true ∧
    (cancelStrategy inactiveState "topup_1").1.message =
      "✅ Successfully cancelled: " ++ sampleInactive.name ∧
    (cancelStrategy inactiveState "topup_1").2 = inactiveState := by
  have h := cancel_already_inactive inactiveState "topup_1" sampleInactive rfl rfl
  exact ⟨rfl, rfl, h.1, h.2.1, h.2.2⟩

/-! ## Creation error handling -/

/-- Claim C8: when the target address fails the format check, create returns
a structured `success = false` result, emits the `strategyCreationFailed`
notification, and commits nothing — the agent state (store and creation
counter) is exactly the one before the call. -/
theorem create_invalid_address (st : AgentState) (strategyName targetAddress : String)
    (now : Nat) (deploy : Except String DeployResult) (simTaskId : Nat)
    (simTxHash : String) (h : isValidAddress targetAddress = false) :
    (createAutoTopupStrategy st strategyName targetAddress now deploy simTaskId
        simTxHash).result.success = false ∧
    (createAutoTopupStrategy st strategyName targetAddress now deploy simTaskId
        simTxHash).state = st ∧
    (createAutoTopupStrategy st strategyName targetAddress now deploy simTaskId
        simTxHash).events =
      [Event.strategyCreationFailed ("Invalid address format: " ++ targetAddress ++
        ". Must be 0x followed by 64 hex characters.")] := by
  simp [createAutoTopupStrategy, h]

theorem create_invalid_address_witness :
    isValidAddress "0x123" = false ∧
    (createAutoTopupStrategy emptyState "Trading Wallet" "0x123" 1
        (Except.error "network down") 7 "0xdead").result.success = false ∧
    (createAutoTopupStrategy emptyState "Trading Wallet" "0x123" 1
        (Except.error "network down") 7 "0xdead").state = emptyState ∧
    (createAutoTopupStrategy emptyState "Trading Wallet" "0x123" 1
        (Except.error "network down") 7 "0xdead").events =
      [Event.strategyCreationFailed ("Invalid address format: " ++ "0x123" ++
        ". Must be 0x followed by 64 hex characters.")] := by
  have h := create_invalid_address emptyState "Trading Wallet" "0x123" 1
    (Except.error "network down") 7 "0xdead" (by decide)
  exact ⟨by decide, h.1, h.2.1, h.2.2⟩

/-! ## Creation success paths (REAL_DEPLOYMENT vs SIMULATION) -/

/-- Claim C1 (counterexample): it is not true that only the mode tag and the
task-identifier provenance differ between the two outcomes — the stored
records also differ in their `description` text ("Smart auto top-up …" vs
"Simulated auto top-up …"); moreover, when the generated id already exists
in the store (same-millisecond creates), the create replaces that record
instead of adding a new one. -/
theorem create_modes_differ_beyond_mode :
    Option.map AutomationStrategy.description
        (lookupS "topup_1" (createAutoTopupStrategy emptyState "Trading Wallet"
          sampleAddr 1 (Except.ok { txHash := "0xaaaa0001", taskId := 1 }) 7
          "0xdead").state.strategies) ≠
      Option.map AutomationStrategy.description
        (lookupS "topup_1" (createAutoTopupStrategy emptyState "Trading Wallet"
          sampleAddr 1 (Except.error "network down") 7
          "0xdead").state.strategies) ∧
    (createAutoTopupStrategy
        (createAutoTopupStrategy emptyState "Trading Wallet" sampleAddr 1
          (Except.error "network down") 7 "0xdead").state
        "Second Wallet" sampleAddr 1 (Except.error "network down") 9
        "0xbeef").state.strategies.length =
      (createAutoTopupStrategy emptyState "Trading Wallet" sampleAddr 1
        (Except.error "network down") 7 "0xdead").state.strategies.length := by
  decide

/-- Claim C1 (amended): for every create call whose `targetAddress` passes
the address-format check and whose generated id `topup_${Date.now()}` is not
already in the store, exactly one new `StrategyRecord` with
`isActive = true` is added and the returned result has `success = true`,
whether the deployment call succeeds (mode `REAL_DEPLOYMENT`) or fails
(mode `SIMULATION`); the two stored records agree on every field except the
`description` text and the provenance of the task identifier
(transaction-hash-derived vs synthesized). -/
theorem create_record_both_modes (st : AgentState)
    (strategyName targetAddress : String) (now : Nat) (r : DeployResult)
    (deployErrorMsg : String) (simTaskId : Nat) (simTxHash : String)
    (hv : isValidAddress targetAddress = true)
    (hfresh : lookupS (strategyIdFor now) st.strategies = none) :
    (createAutoTopupStrategy st strategyName targetAddress now (Except.ok r)
        simTaskId simTxHash).result.success = true ∧
    (createAutoTopupStrategy st strategyName targetAddress now
        (Except.error deployErrorMsg) simTaskId simTxHash).result.success = true ∧
    (createAutoTopupStrategy st strategyName targetAddress now (Except.ok r)
        simTaskId simTxHash).result.mode = some "REAL_DEPLOYMENT" ∧
    (createAutoTopupStrategy st strategyName targetAddress now
        (Except.error deployErrorMsg) simTaskId simTxHash).result.mode =
      some "SIMULATION" ∧
    (createAutoTopupStrategy st strategyName targetAddress now (Except.ok r)
        simTaskId simTxHash).state.strategies.length =
      st.strategies.length + 1 ∧
    (createAutoTopupStrategy st strategyName targetAddress now
        (Except.error deployErrorMsg) simTaskId
        simTxHash).state.strategies.length = st.strategies.length + 1 ∧
    ∃ sR sS : AutomationStrategy,
      lookupS (strategyIdFor now) (createAutoTopupStrategy st strategyName
        targetAddress now (Except.ok r) simTaskId simTxHash).state.strategies =
          some sR ∧
      lookupS (strategyIdFor now) (createAutoTopupStrategy st strategyName
        targetAddress now (Except.error deployErrorMsg) simTaskId
        simTxHash).state.strategies = some sS ∧
      sR.isActive = true ∧ sS.isActive = true ∧
      sR.id = sS.id ∧ sR.stratType = sS.stratType ∧ sR.name = sS.name ∧
      sR.target = sS.target ∧ sR.createdAt = sS.createdAt ∧
      sR.lastChecked = sS.lastChecked ∧
      sR.executionCount = sS.executionCount ∧
      sR.successRate = sS.successRate ∧
      sR.totalTransferred = sS.totalTransferred ∧
      sR.taskId = r.taskId ∧ sS.taskId = simTaskId := by
  simp only [createAutoTopupStrategy, hv, Bool.true_eq_false, if_false]
  refine ⟨trivial, trivial, trivial, trivial,
    mapSet_length_of_lookup_none _ _ _ hfresh,
    mapSet_length_of_lookup_none _ _ _ hfresh, ?_⟩
  exact ⟨_, _, lookupS_mapSet_self _ _ _, lookupS_mapSet_self _ _ _, by simp⟩

theorem create_record_both_modes_witness :
    isValidAddress sampleAddr = true ∧
    lookupS (strategyIdFor 1) emptyState.strategies = none ∧
    ((createAutoTopupStrategy emptyState "Trading Wallet" sampleAddr 1
        (Except.ok { txHash := "0xaaaa0001", taskId := 1 }) 7
        "0xdead").result.success = true ∧
      (createAutoTopupStrategy emptyState "Trading Wallet" sampleAddr 1
        (Except.error "network down") 7 "0xdead").result.success = true) := by
  have h := create_record_both_modes emptyState "Trading Wallet" sampleAddr 1
    { txHash := "0xaaaa0001", taskId := 1 } "network down" 7 "0xdead"
    (by decide) rfl
  exact ⟨by decide, rfl, h.1, h.2.1⟩

/-- Claim C3 (counterexample): a successful create in SIMULATION mode does
NOT increment `totalStrategiesCreated` and does NOT emit a `strategyCreated`
notification — both happen only on the REAL_DEPLOYMENT path. -/
theorem create_simulation_no_counter_no_event :
    (createAutoTopupStrategy emptyState "Trading Wallet" sampleAddr 1
        (Except.error "network down") 7 "0xdead").result.success = true ∧
    (createAutoTopupStrategy emptyState "Trading Wallet" sampleAddr 1
        (Except.error "network down") 7 "0xdead").result.mode =
      some "SIMULATION" ∧
    (createAutoTopupStrategy emptyState "Trading Wallet" sampleAddr 1
        (Except.error "network down") 7
        "0xdead").state.totalStrategiesCreated =
      emptyState.totalStrategiesCreated ∧
    (createAutoTopupStrategy emptyState "Trading Wallet" sampleAddr 1
        (Except.error "network down") 7 "0xdead").events = [] := by
  decide

/-- Claim C3 (amended): a successful create persists the new record with
`isActive = true` in both modes, but only the REAL_DEPLOYMENT path
increments the strategy-creation counter and emits the `strategyCreated`
notification; the SIMULATION path leaves the counter unchanged and emits
nothing. The `strategyCreationFailed` notification is emitted only when
address validation rejected the input before any record was built. -/
theorem create_persist_and_notify (st : AgentState)
    (strategyName targetAddress : String) (now : Nat) (r : DeployResult)
    (deployErrorMsg : String) (simTaskId : Nat) (simTxHash : String)
    (hv : isValidAddress targetAddress = true) :
    (∃ sR, lookupS (strategyIdFor now) (createAutoTopupStrategy st strategyName
        targetAddress now (Except.ok r) simTaskId simTxHash).state.strategies =
          some sR ∧ sR.isActive = true ∧
      (createAutoTopupStrategy st strategyName targetAddress now (Except.ok r)
        simTaskId simTxHash).events = [Event.strategyCreated sR]) ∧
    (createAutoTopupStrategy st strategyName targetAddress now (Except.ok r)
        simTaskId simTxHash).state.totalStrategiesCreated =
      st.totalStrategiesCreated + 1 ∧
    (∃ sS, lookupS (strategyIdFor now) (createAutoTopupStrategy st strategyName
        targetAddress now (Except.error deployErrorMsg) simTaskId
        simTxHash).state.strategies = some sS ∧ sS.isActive = true) ∧
    (createAutoTopupStrategy st strategyName targetAddress now
        (Except.error deployErrorMsg) simTaskId
        simTxHash).state.totalStrategiesCreated = st.totalStrategiesCreated ∧
    (createAutoTopupStrategy st strategyName targetAddress now
        (Except.error deployErrorMsg) simTaskId simTxHash).events = [] ∧
    (∀ m, Event.strategyCreationFailed m ∉ (createAutoTopupStrategy st
        strategyName targetAddress now (Except.ok r) simTaskId
        simTxHash).events) ∧
    (∀ m, Event.strategyCreationFailed m ∉ (createAutoTopupStrategy st
        strategyName targetAddress now (Except.error deployErrorMsg) simTaskId
        simTxHash).events) := by
  simp only [createAutoTopupStrategy, hv, Bool.true_eq_false, if_false]
  refine ⟨⟨_, lookupS_mapSet_self _ _ _, rfl, rfl⟩, trivial,
    ⟨_, lookupS_mapSet_self _ _ _, rfl⟩, trivial, trivial, ?_, ?_⟩ <;>
    intro m <;> simp

theorem create_persist_and_notify_witness :
    isValidAddress sampleAddr = true ∧
    ((createAutoTopupStrategy emptyState "Trading Wallet" sampleAddr 1
        (Except.ok { txHash := "0xaaaa0001", taskId := 1 }) 7
        "0xdead").state.totalStrategiesCreated =
      emptyState.totalStrategiesCreated + 1 ∧
    (createAutoTopupStrategy emptyState "Trading Wallet" sampleAddr 1
        (Except.error "network down") 7
        "0xdead").state.totalStrategiesCreated =
      emptyState.totalStrategiesCreated) := by
  have h := create_persist_and_notify emptyState "Trading Wallet" sampleAddr 1
    { txHash := "0xaaaa0001", taskId := 1 } "network down" 7 "0xdead"
    (by decide)
  exact ⟨by decide, h.2.1, h.2.2.2.1⟩

/-! ## Strategy-id uniqueness -/

theorem decDigitVal_decDigitChar : ∀ d : Nat, d < 10 →
    decDigitVal (decDigitChar d) = d := by
  decide

theorem decFromDigits_append_digit (l : List Char) (c : Char) :
    decFromDigits (l ++ [c]) = decFromDigits l * 10 + decDigitVal c := by
  simp [decFromDigits, List.foldl_append]

theorem decFromDigits_natDigitsAux : ∀ (fuel n : Nat), n < 10 ^ fuel →
    decFromDigits (natDigitsAux fuel n) = n := by
  intro fuel
  induction fuel with
  | zero =>
    intro n h
    simp only [pow_zero, Nat.lt_one_iff] at h
    subst h
    simp [natDigitsAux, decFromDigits]
  | succ fuel ih =>
    intro n h
    by_cases h0 : n = 0
    · subst h0
      simp [natDigitsAux, decFromDigits]
    · have hdiv : n / 10 < 10 ^ fuel := by
        rw [Nat.div_lt_iff_lt_mul (by norm_num)]
        calc n < 10 ^ (fuel + 1) := h
        _ = 10 ^ fuel * 10 := by ring
      rw [natDigitsAux, if_neg h0, decFromDigits_append_digit, ih (n / 10) hdiv,
        decDigitVal_decDigitChar (n % 10) (Nat.mod_lt n (by norm_num))]
      omega

theorem natToDecString_inj (a b : Nat) (h : natToDecString a = natToDecString b) :
    a = b := by
  have hdata := congrArg String.data h
  unfold natToDecString at hdata
  by_cases ha : a = 0 <;> by_cases hb : b = 0
  · rw [ha, hb]
  · rw [if_pos ha, if_neg hb] at hdata
    have : decFromDigits ['0'] = decFromDigits (natDigitsAux b b) :=
      congrArg decFromDigits hdata
    rw [decFromDigits_natDigitsAux b b (Nat.lt_pow_self (by norm_num) b)] at this
    exact absurd this.symm hb
  · rw [if_neg ha, if_pos hb] at hdata
    have : decFromDigits (natDigitsAux a a) = decFromDigits ['0'] :=
      congrArg decFromDigits hdata
    rw [decFromDigits_natDigitsAux a a (Nat.lt_pow_self (by norm_num) a)] at this
    exact absurd this ha
  · rw [if_neg ha, if_neg hb] at hdata
    have : decFromDigits (natDigitsAux a a) = decFromDigits (natDigitsAux b b) :=
      congrArg decFromDigits hdata
    rwa [decFromDigits_natDigitsAux a a (Nat.lt_pow_self (by norm_num) a),
      decFromDigits_natDigitsAux b b (Nat.lt_pow_self (by norm_num) b)] at this

theorem strategyIdFor_inj (a b : Nat) (h : strategyIdFor a = strategyIdFor b) :
    a = b := by
  unfold strategyIdFor at h
  have hdata := congrArg String.data h
  rw [String.data_append, String.data_append] at hdata
  exact natToDecString_inj a b (String.ext (List.append_cancel_left hdata))

/-- A create call touches no store key other than its own generated id. -/
theorem create_preserves_other_ids (st : AgentState)
    (strategyName targetAddress : String) (now : Nat)
    (deploy : Except String DeployResult) (simTaskId : Nat) (simTxHash : String)
    (id : String) (s : AutomationStrategy)
    (hs : lookupS id st.strategies = some s) (hid : id ≠ strategyIdFor now) :
    lookupS id (createAutoTopupStrategy st strategyName targetAddress now
      deploy simTaskId simTxHash).state.strategies = some s := by
  unfold createAutoTopupStrategy
  by_cases hv : isValidAddress targetAddress = false
  · simp only [hv, if_true, if_pos rfl]
    exact hs
  · simp only [hv, if_false]
    cases deploy with
    | ok r => simpa [lookupS_mapSet_ne _ _ _ _ (Ne.symm hid)] using hs
    | error e => simpa [lookupS_mapSet_ne _ _ _ _ (Ne.symm hid)] using hs

/-- Claim C4 (counterexample): two successful create calls in the same
`Date.now()` millisecond are assigned the SAME strategy id, and the second
`Map.set` overwrites the first record — the store still holds a single
record after both creates. -/
theorem create_id_reuse_same_timestamp :
    (createAutoTopupStrategy emptyState "First Wallet" sampleAddr 5
        (Except.error "network down") 7 "0xdead").result.success = true ∧
    (createAutoTopupStrategy (createAutoTopupStrategy emptyState "First Wallet"
          sampleAddr 5 (Except.error "network down") 7 "0xdead").state
        "Second Wallet" sampleAddr 5 (Except.error "network down") 9
        "0xbeef").result.success = true ∧
    (createAutoTopupStrategy emptyState "First Wallet" sampleAddr 5
        (Except.error "network down") 7 "0xdead").result.strategyId =
      some "topup_5" ∧
    (createAutoTopupStrategy (createAutoTopupStrategy emptyState "First Wallet"
          sampleAddr 5 (Except.error "network down") 7 "0xdead").state
        "Second Wallet" sampleAddr 5 (Except.error "network down") 9
        "0xbeef").result.strategyId = some "topup_5" ∧
    (createAutoTopupStrategy (createAutoTopupStrategy emptyState "First Wallet"
          sampleAddr 5 (Except.error "network down") 7 "0xdead").state
        "Second Wallet" sampleAddr 5 (Except.error "network down") 9
        "0xbeef").state.strategies.length = 1 := by
  decide

/-- Claim C4 (amended): two create calls whose `Date.now()` timestamps
differ are assigned distinct strategy ids, and a create whose generated id
is not the key of an existing record leaves every existing record in place
(no overwrite); id reuse occurs exactly when two creates share the same
timestamp (see the counterexample). -/
theorem create_id_no_reuse (now₁ now₂ : Nat) (hne : now₁ ≠ now₂) :
    strategyIdFor now₁ ≠ strategyIdFor now₂ ∧
    ∀ (st : AgentState) (strategyName targetAddress : String)
      (deploy : Except String DeployResult) (simTaskId : Nat)
      (simTxHash : String) (id : String) (s : AutomationStrategy),
      lookupS id st.strategies = some s → id ≠ strategyIdFor now₁ →
      lookupS id (createAutoTopupStrategy st strategyName targetAddress now₁
        deploy simTaskId simTxHash).state.strategies = some s := by
  refine ⟨fun h => hne (strategyIdFor_inj now₁ now₂ h), ?_⟩
  intro st strategyName targetAddress deploy simTaskId simTxHash id s hs hid
  exact create_preserves_other_ids st strategyName targetAddress now₁ deploy
    simTaskId simTxHash id s hs hid

theorem create_id_no_reuse_witness :
    (1 : Nat) ≠ 2 ∧
    strategyIdFor 1 ≠ strategyIdFor 2 ∧
    lookupS "topup_1" inactiveState.strategies = some sampleInactive ∧
    "topup_1" ≠ strategyIdFor 2 ∧
    lookupS "topup_1" (createAutoTopupStrategy inactiveState "Second Wallet"
        sampleAddr 2 (Except.error "network down") 7
        "0xdead").state.strategies = some sampleInactive := by
  refine ⟨by decide, (create_id_no_reuse 1 2 (by decide)).1, rfl, by decide, ?_⟩
  exact (create_id_no_reuse 2 1 (by decide)).2 inactiveState "Second Wallet"
    sampleAddr (Except.error "network down") 7 "0xdead" "topup_1"
    sampleInactive rfl (by decide)

/-! ## Lemmas about the monitoring fold -/

theorem mem_of_lookupS (m : List (String × AutomationStrategy)) (id : String)
    (s : AutomationStrategy) (h : lookupS id m = some s) : (id, s) ∈ m := by
  induction m with
  | nil => simp [lookupS] at h
  | cons p rest ih =>
    obtain ⟨k, v⟩ := p
    by_cases hk : k = id
    · subst hk
      have : v = s := by simpa [lookupS] using h
      subst this
      exact List.mem_cons_self _ _
    · simp only [lookupS, hk, if_false] at h
      exact List.mem_cons_of_mem _ (ih h)

theorem lookupS_of_mem_nodup (m : List (String × AutomationStrategy))
    (hnd : (m.map Prod.fst).Nodup) : ∀ p ∈ m, lookupS p.1 m = some p.2 := by
  induction m with
  | nil => intro p hp; simp at hp
  | cons q rest ih =>
    intro p hp
    obtain ⟨k, v⟩ := q
    rcases List.mem_cons.mp hp with heq | hmem
    · subst heq
      simp [lookupS]
    · have hk : k ∉ rest.map Prod.fst := (List.nodup_cons.mp hnd).1
      have hne : k ≠ p.1 := by
        intro h
        exact hk (h ▸ List.mem_map_of_mem Prod.fst hmem)
      simp only [lookupS, hne, if_false]
      exact ih (List.nodup_cons.mp hnd).2 p hmem

theorem runPeriodicCheckGo_cons_inactive (oracle : String → Except String Nat)
    (fallbackBal : String → Nat) (now : Nat) (pid : String)
    (ps : AutomationStrategy) (rest : List (String × AutomationStrategy))
    (st : AgentState) (evs : List Event) (h : ps.isActive = false) :
    runPeriodicCheckGo oracle fallbackBal now ((pid, ps) :: rest) st evs =
      runPeriodicCheckGo oracle fallbackBal now rest st evs := by
  simp [runPeriodicCheckGo, h]

theorem runPeriodicCheckGo_cons_active (oracle : String → Except String Nat)
    (fallbackBal : String → Nat) (now : Nat) (pid : String)
    (ps : AutomationStrategy) (rest : List (String × AutomationStrategy))
    (st : AgentState) (evs : List Event) (h : ps.isActive = true) :
    runPeriodicCheckGo oracle fallbackBal now ((pid, ps) :: rest) st evs =
      runPeriodicCheckGo oracle fallbackBal now rest
        { st with strategies :=
            mapSet st.strategies pid { ps with lastChecked := some now } }
        (evs ++ (if getAccountBalance oracle fallbackBal ps.target < 600000000 * 2
          then [Event.lowBalanceAlert ps (getAccountBalance oracle fallbackBal ps.target)]
          else [])) := by
  simp [runPeriodicCheckGo, h, tryCheckStrategy]

theorem runPeriodicCheckGo_state (oracle : String → Except String Nat)
    (fallbackBal : String → Nat) (now : Nat) :
    ∀ (l : List (String × AutomationStrategy)) (st : AgentState) (evs : List Event),
    (l.map Prod.fst).Nodup →
    (∀ p ∈ l, lookupS p.1 st.strategies = some p.2) →
    ∀ id : String,
      ((∀ v, (id, v) ∉ l) →
        lookupS id (runPeriodicCheckGo oracle fallbackBal now l st evs).1.strategies
          = lookupS id st.strategies) ∧
      (∀ s, (id, s) ∈ l →
        lookupS id (runPeriodicCheckGo oracle fallbackBal now l st evs).1.strategies
          = some (if s.isActive = true then { s with lastChecked := some now } else s)) := by
  intro l
  induction l with
  | nil =>
    intro st evs _ _ id
    exact ⟨fun _ => rfl, fun s hs => absurd hs (List.not_mem_nil _)⟩
  | cons p rest ih =>
    intro st evs hnd hinv id
    obtain ⟨pid, ps⟩ := p
    have hnd' : (rest.map Prod.fst).Nodup := (List.nodup_cons.mp hnd).2
    have hpid_not : pid ∉ rest.map Prod.fst := (List.nodup_cons.mp hnd).1
    by_cases hact : ps.isActive = false
    · rw [runPeriodicCheckGo_cons_inactive oracle fallbackBal now pid ps rest st evs hact]
      have hinv' : ∀ p ∈ rest, lookupS p.1 st.strategies = some p.2 :=
        fun p hp => hinv p (List.mem_cons_of_mem _ hp)
      obtain ⟨ihA, ihB⟩ := ih st evs hnd' hinv' id
      constructor
      · intro hnot
        exact ihA fun v hv => hnot v (List.mem_cons_of_mem _ hv)
      · intro s hs
        rcases List.mem_cons.mp hs with heq | hmem
        · injection heq with h1 h2
          subst h1; subst h2
          have hnotin : ∀ v, (id, v) ∉ rest :=
            fun v hv => hpid_not (List.mem_map_of_mem Prod.fst hv)
          rw [ihA hnotin, hinv _ (List.mem_cons_self _ _)]
          simp [hact]
        · exact ihB s hmem
    · have hact' : ps.isActive = true := by
        revert hact; cases ps.isActive <;> simp
      rw [runPeriodicCheckGo_cons_active oracle fallbackBal now pid ps rest st evs hact']
      have hinv' : ∀ p ∈ rest,
          lookupS p.1 (AgentState.mk
            (mapSet st.strategies pid { ps with lastChecked := some now })
            st.totalStrategiesCreated).strategies = some p.2 := by
        intro p hp
        have hne : pid ≠ p.1 := by
          intro h
          exact hpid_not (h ▸ List.mem_map_of_mem Prod.fst hp)
        rw [lookupS_mapSet_ne _ _ _ _ hne]
        exact hinv p (List.mem_cons_of_mem _ hp)
      obtain ⟨ihA, ihB⟩ := ih _ _ hnd' hinv' id
      constructor
      · intro hnot
        have hne : id ≠ pid := by
          intro h
          exact hnot ps (by rw [h]; exact List.mem_cons_self _ _)
        rw [ihA fun v hv => hnot v (List.mem_cons_of_mem _ hv)]
        exact lookupS_mapSet_ne _ _ _ _ (Ne.symm hne)
      · intro s hs
        rcases List.mem_cons.mp hs with heq | hmem
        · injection heq with h1 h2
          subst h1; subst h2
          have hnotin : ∀ v, (id, v) ∉ rest :=
            fun v hv => hpid_not (List.mem_map_of_mem Prod.fst hv)
          rw [ihA hnotin, lookupS_mapSet_self, if_pos hact']
        · exact ihB s hmem

theorem runPeriodicCheckGo_events (oracle : String → Except String Nat)
    (fallbackBal : String → Nat) (now : Nat) :
    ∀ (l : List (String × AutomationStrategy)) (st : AgentState) (evs : List Event),
    (runPeriodicCheckGo oracle fallbackBal now l st evs).2 =
      evs ++ l.filterMap (monitorAlertOf oracle fallbackBal) := by
  intro l
  induction l with
  | nil => intro st evs; simp [runPeriodicCheckGo]
  | cons p rest ih =>
    intro st evs
    obtain ⟨pid, ps⟩ := p
    by_cases hact : ps.isActive = false
    · rw [runPeriodicCheckGo_cons_inactive oracle fallbackBal now pid ps rest st evs hact,
        ih]
      simp [monitorAlertOf, hact]
    · have hact' : ps.isActive = true := by
        revert hact; cases ps.isActive <;> simp
      rw [runPeriodicCheckGo_cons_active oracle fallbackBal now pid ps rest st evs hact',
        ih]
      by_cases hbal : getAccountBalance oracle fallbackBal ps.target < 600000000 * 2
      · simp [monitorAlertOf, hact', hbal]
      · simp [monitorAlertOf, hact', hbal]

theorem updateStrategyPerformanceGo_state (now : Nat) :
    ∀ (l : List (String × AutomationStrategy)) (st : AgentState),
    (l.map Prod.fst).Nodup →
    (∀ p ∈ l, lookupS p.1 st.strategies = some p.2) →
    ∀ id : String,
      ((∀ v, (id, v) ∉ l) →
        lookupS id (updateStrategyPerformanceGo now l st).strategies
          = lookupS id st.strategies) ∧
      (∀ s, (id, s) ∈ l →
        lookupS id (updateStrategyPerformanceGo now l st).strategies
          = some (if s.isActive = true then { s with lastChecked := some now } else s)) := by
  intro l
  induction l with
  | nil =>
    intro st _ _ id
    exact ⟨fun _ => rfl, fun s hs => absurd hs (List.not_mem_nil _)⟩
  | cons p rest ih =>
    intro st hnd hinv id
    obtain ⟨pid, ps⟩ := p
    have hnd' : (rest.map Prod.fst).Nodup := (List.nodup_cons.mp hnd).2
    have hpid_not : pid ∉ rest.map Prod.fst := (List.nodup_cons.mp hnd).1
    by_cases hact : ps.isActive = true
    · have hgo : updateStrategyPerformanceGo now ((pid, ps) :: rest) st =
          updateStrategyPerformanceGo now rest (AgentState.mk
            (mapSet st.strategies pid { ps with lastChecked := some now })
            st.totalStrategiesCreated) := by
        simp [updateStrategyPerformanceGo, hact]
      rw [hgo]
      have hinv' : ∀ p ∈ rest,
          lookupS p.1 (AgentState.mk
            (mapSet st.strategies pid { ps with lastChecked := some now })
            st.totalStrategiesCreated).strategies = some p.2 := by
        intro p hp
        have hne : pid ≠ p.1 := by
          intro h
          exact hpid_not (h ▸ List.mem_map_of_mem Prod.fst hp)
        rw [lookupS_mapSet_ne _ _ _ _ hne]
        exact hinv p (List.mem_cons_of_mem _ hp)
      obtain ⟨ihA, ihB⟩ := ih _ hnd' hinv' id
      constructor
      · intro hnot
        have hne : id ≠ pid := by
          intro h
          exact hnot ps (by rw [h]; exact List.mem_cons_self _ _)
        rw [ihA fun v hv => hnot v (List.mem_cons_of_mem _ hv)]
        exact lookupS_mapSet_ne _ _ _ _ (Ne.symm hne)
      · intro s hs
        rcases List.mem_cons.mp hs with heq | hmem
        · injection heq with h1 h2
          subst h1; subst h2
          have hnotin : ∀ v, (id, v) ∉ rest :=
            fun v hv => hpid_not (List.mem_map_of_mem Prod.fst hv)
          rw [ihA hnotin, lookupS_mapSet_self, if_pos hact]
        · exact ihB s hmem
    · have hgo : updateStrategyPerformanceGo now ((pid, ps) :: rest) st =
          updateStrategyPerformanceGo now rest st := by
        simp [updateStrategyPerformanceGo, hact]
      rw [hgo]
      have hinv' : ∀ p ∈ rest, lookupS p.1 st.strategies = some p.2 :=
        fun p hp => hinv p (List.mem_cons_of_mem _ hp)
      obtain ⟨ihA, ihB⟩ := ih st hnd' hinv' id
      constructor
      · intro hnot
        exact ihA fun v hv => hnot v (List.mem_cons_of_mem _ hv)
      · intro s hs
        rcases List.mem_cons.mp hs with heq | hmem
        · injection heq with h1 h2
          subst h1; subst h2
          have hnotin : ∀ v, (id, v) ∉ rest :=
            fun v hv => hpid_not (List.mem_map_of_mem Prod.fst hv)
          rw [ihA hnotin, hinv _ (List.mem_cons_self _ _)]
          simp [hact]
        · exact ihB s hmem

/-! ## Lifecycle invariant: no reactivation -/

/-- Claim C5 (counterexample): a create whose `Date.now()` timestamp
collides with an existing record's id replaces a cancelled record with a
fresh `isActive = true` record under the same id, so the store's `isActive`
at that id goes from false back to true. -/
theorem isActive_reactivated_by_id_collision :
    Option.map AutomationStrategy.isActive (lookupS "topup_5"
      (cancelStrategy (createAutoTopupStrategy emptyState "Trading Wallet"
        sampleAddr 5 (Except.error "network down") 7
        "0xdead").state "topup_5").2.strategies) = some false ∧
    Option.map AutomationStrategy.isActive (lookupS "topup_5"
      (createAutoTopupStrategy
        (cancelStrategy (createAutoTopupStrategy emptyState "Trading Wallet"
          sampleAddr 5 (Except.error "network down") 7 "0xdead").state
          "topup_5").2
        "Second Wallet" sampleAddr 5 (Except.error "network down") 9
        "0xbeef").state.strategies) = some true := by
  decide

/-- Claim C5 (amended): no operation mutates an existing record's `isActive`
from false to true — records are created active, cancellation sets the flag
to false, and list/status/monitor/performance passes never raise it —
provided the operation is not a create whose generated id
`topup_${Date.now()}` collides with that record's id (in which case the
record is wholesale replaced by a fresh active one; see the
counterexample). -/
theorem isActive_never_reactivated (st : AgentState) (op : AgentOp)
    (id : String) (s : AutomationStrategy)
    (hnd : (st.strategies.map Prod.fst).Nodup)
    (hs : lookupS id st.strategies = some s) (hin : s.isActive = false)
    (hid : opGeneratedId op ≠ some id) :
    ∃ s', lookupS id (applyOp st op).strategies = some s' ∧
      s'.isActive = false := by
  cases op with
  | create strategyName targetAddress now deploy simTaskId simTxHash =>
    have hgen : id ≠ strategyIdFor now := by
      intro h
      exact hid (by simp [opGeneratedId, h])
    exact ⟨s, create_preserves_other_ids st strategyName targetAddress now
      deploy simTaskId simTxHash id s hs hgen, hin⟩
  | cancel cid =>
    show ∃ s', lookupS id (cancelStrategy st cid).2.strategies = some s' ∧
      s'.isActive = false
    unfold cancelStrategy
    cases hc : lookupS cid st.strategies with
    | none => exact ⟨s, hs, hin⟩
    | some sc =>
      by_cases heq : cid = id
      · subst heq
        refine ⟨{ sc with isActive := false }, ?_, rfl⟩
        simp only
        exact lookupS_mapSet_self _ _ _
      · refine ⟨s, ?_, hin⟩
        simp only
        rw [lookupS_mapSet_ne _ _ _ _ heq]
        exact hs
  | listActive => exact ⟨s, hs, hin⟩
  | checkStatus oracle fallbackBal now strategyId => exact ⟨s, hs, hin⟩
  | periodicCheck oracle fallbackBal now =>
    have h := (runPeriodicCheckGo_state oracle fallbackBal now st.strategies st
      [] hnd (lookupS_of_mem_nodup st.strategies hnd) id).2 s
      (mem_of_lookupS st.strategies id s hs)
    refine ⟨s, ?_, hin⟩
    show lookupS id (runPeriodicCheck oracle fallbackBal now st).1.strategies
      = some s
    unfold runPeriodicCheck
    rw [h]
    simp [hin]
  | perfUpdate now =>
    have h := (updateStrategyPerformanceGo_state now st.strategies st hnd
      (lookupS_of_mem_nodup st.strategies hnd) id).2 s
      (mem_of_lookupS st.strategies id s hs)
    refine ⟨s, ?_, hin⟩
    show lookupS id (updateStrategyPerformance now st).strategies = some s
    unfold updateStrategyPerformance
    rw [h]
    simp [hin]

theorem isActive_never_reactivated_witness :
    (inactiveState.strategies.map Prod.fst).Nodup ∧
    lookupS "topup_1" inactiveState.strategies = some sampleInactive ∧
    sampleInactive.isActive = false ∧
    opGeneratedId (AgentOp.cancel "other") ≠ some "topup_1" ∧
    ∃ s', lookupS "topup_1"
        (applyOp inactiveState (AgentOp.cancel "other")).strategies = some s' ∧
      s'.isActive = false :=
  ⟨by decide, rfl, rfl, by decide,
    isActive_never_reactivated inactiveState (AgentOp.cancel "other")
      "topup_1" sampleInactive (by decide) rfl rfl (by decide)⟩

/-! ## Monitor pass behavior -/

/-- Claim C6 (counterexample): with three strategies — two active, one
cancelled — where the balance fetch for the second active one throws, a
monitor pass emits NO `strategyError` at all (the `catch` is dead code
because `getAccountBalance` swallows its own failures and returns a
synthetic balance); the failing strategy's `lastChecked` is refreshed like
the others, and it receives a `lowBalanceAlert` carrying the synthetic
balance. -/
theorem monitor_failing_fetch_no_strategy_error :
    (runPeriodicCheck monitorDemoOracle monitorDemoFallback 99 monitorState).2 =
      [Event.lowBalanceAlert monB 42] ∧
    Option.map AutomationStrategy.lastChecked (lookupS "topup_a"
      (runPeriodicCheck monitorDemoOracle monitorDemoFallback 99
        monitorState).1.strategies) = some (some 99) ∧
    Option.map AutomationStrategy.lastChecked (lookupS "topup_b"
      (runPeriodicCheck monitorDemoOracle monitorDemoFallback 99
        monitorState).1.strategies) = some (some 99) ∧
    Option.map AutomationStrategy.lastChecked (lookupS "topup_c"
      (runPeriodicCheck monitorDemoOracle monitorDemoFallback 99
        monitorState).1.strategies) = some none := by
  decide

/-- Claim C6 (amended): a monitor pass refreshes `lastChecked` for every
active strategy — including any whose underlying balance query fails,
because `getAccountBalance` absorbs the failure and substitutes a synthetic
balance below 100_000_000 — leaves inactive records untouched, never emits a
`strategyError` (the catch branch is unreachable), and emits a
`lowBalanceAlert` for an active strategy exactly when its fetched-or-
synthetic balance is strictly below 2 × 600_000_000; in particular a
strategy whose query fails always gets a `lowBalanceAlert`, and no
per-record failure aborts the remaining iterations. -/
theorem monitor_pass_spec (oracle : String → Except String Nat)
    (fallbackBal : String → Nat) (now : Nat) (st : AgentState)
    (hnd : (st.strategies.map Prod.fst).Nodup) :
    (∀ id s, lookupS id st.strategies = some s →
      lookupS id (runPeriodicCheck oracle fallbackBal now st).1.strategies =
        some (if s.isActive = true then { s with lastChecked := some now } else s)) ∧
    (∀ id e, Event.strategyError id e ∉
      (runPeriodicCheck oracle fallbackBal now st).2) ∧
    (∀ s b, Event.lowBalanceAlert s b ∈
        (runPeriodicCheck oracle fallbackBal now st).2 ↔
      ∃ id, (id, s) ∈ st.strategies ∧ s.isActive = true ∧
        b = getAccountBalance oracle fallbackBal s.target ∧ b < 1200000000) ∧
    (∀ id s e, (id, s) ∈ st.strategies → s.isActive = true →
      oracle s.target = Except.error e → fallbackBal s.target < 100000000 →
      Event.lowBalanceAlert s (fallbackBal s.target) ∈
        (runPeriodicCheck oracle fallbackBal now st).2) := by
  have hev : (runPeriodicCheck oracle fallbackBal now st).2 =
      st.strategies.filterMap (monitorAlertOf oracle fallbackBal) := by
    unfold runPeriodicCheck
    rw [runPeriodicCheckGo_events]
    simp
  have hmemiff : ∀ s b, Event.lowBalanceAlert s b ∈
      (runPeriodicCheck oracle fallbackBal now st).2 ↔
    ∃ id, (id, s) ∈ st.strategies ∧ s.isActive = true ∧
      b = getAccountBalance oracle fallbackBal s.target ∧ b < 1200000000 := by
    intro s b
    rw [hev, List.mem_filterMap]
    constructor
    · rintro ⟨⟨id, s'⟩, hmem, heq⟩
      unfold monitorAlertOf at heq
      dsimp only at heq
      by_cases hact : s'.isActive = true
      · rw [if_pos hact] at heq
        by_cases hbal : getAccountBalance oracle fallbackBal s'.target < 600000000 * 2
        · rw [if_pos hbal] at heq
          injection heq with heq'
          injection heq' with h1 h2
          subst h1
          subst h2
          exact ⟨id, hmem, hact, rfl, by omega⟩
        · rw [if_neg hbal] at heq
          exact absurd heq (by simp)
      · rw [if_neg hact] at heq
        exact absurd heq (by simp)
    · rintro ⟨id, hmem, hact, hb, hlt⟩
      refine ⟨(id, s), hmem, ?_⟩
      unfold monitorAlertOf
      rw [if_pos hact, if_pos (by omega : getAccountBalance oracle fallbackBal
        s.target < 600000000 * 2)]
      rw [hb]
  refine ⟨?_, ?_, hmemiff, ?_⟩
  · intro id s hs
    exact (runPeriodicCheckGo_state oracle fallbackBal now st.strategies st []
      hnd (lookupS_of_mem_nodup st.strategies hnd) id).2 s
      (mem_of_lookupS st.strategies id s hs)
  · intro id e hmem
    rw [hev] at hmem
    obtain ⟨⟨pid, ps⟩, _, heq⟩ := List.mem_filterMap.mp hmem
    unfold monitorAlertOf at heq
    by_cases hact : ps.isActive = true
    · rw [if_pos hact] at heq
      by_cases hbal : getAccountBalance oracle fallbackBal ps.target < 600000000 * 2
      · rw [if_pos hbal] at heq
        exact absurd heq (by simp)
      · rw [if_neg hbal] at heq
        exact absurd heq (by simp)
    · rw [if_neg hact] at heq
      exact absurd heq (by simp)
  · intro id s e hmem hact horacle hfb
    refine (hmemiff s (fallbackBal s.target)).mpr
      ⟨id, hmem, hact, ?_, by omega⟩
    unfold getAccountBalance
    rw [horacle]

theorem monitor_pass_spec_witness :
    (monitorState.strategies.map Prod.fst).Nodup ∧
    lookupS "topup_b" (runPeriodicCheck monitorDemoOracle monitorDemoFallback
      99 monitorState).1.strategies = some { monB with lastChecked := some 99 } ∧
    Event.lowBalanceAlert monB 42 ∈
      (runPeriodicCheck monitorDemoOracle monitorDemoFallback 99 monitorState).2 := by
  have h := monitor_pass_spec monitorDemoOracle monitorDemoFallback 99
    monitorState (by decide)
  refine ⟨by decide, ?_, ?_⟩
  · have hb := h.1 "topup_b" monB (by decide)
    simpa [monB, monA] using hb
  · exact h.2.2.2 "topup_b" monB "rpc down" (by decide) (by decide) rfl
      (by decide)

end AutoFi
